import Mathlib

/-!
Verification of the AF_XDP redirect program in `src/ebpf/afxdp.c`.

The program declares one BPF map:

    struct {
        __uint(type, BPF_MAP_TYPE_XSKMAP);
        __type(key, __u32);
        __type(value, __u32);
        __uint(max_entries, 64);
    } xsks_map SEC(".maps");

and one XDP program:

    int xsk_redir_prog(struct xdp_md *ctx)
    {
        __u32 index = ctx->rx_queue_index;
        if (bpf_map_lookup_elem(&xsks_map, &index))
            return bpf_redirect_map(&xsks_map, index, 0);
        return XDP_PASS;
    }

We embed the map as an array-style table of 64 optional socket slots
(kernel XSKMAP semantics for the declared `max_entries`), the kernel
helpers the program calls, and the program body itself.
-/

/-- `max_entries` of `xsks_map` as declared in `src/ebpf/afxdp.c`. -/
def maxEntries : Nat := 64

/-- The contents of `xsks_map`: for each `__u32` queue index, the socket
currently stored in that slot, if any.  A `BPF_MAP_TYPE_XSKMAP` is an
array-type map, so only keys below `max_entries` are addressable; the
helpers below enforce that bound, values of the function at larger keys
are never observed. -/
def XskMap : Type := Nat → Option Nat

/-- Kernel helper `bpf_map_lookup_elem` on an array-type map with
`max_entries = 64`: returns the entry at `key`, and misses (NULL) for any
key outside the array range. -/
def bpf_map_lookup_elem (m : XskMap) (key : Nat) : Option Nat :=
  if key < maxEntries then m key else none

/-- Kernel (control-plane) helper `bpf_map_update_elem` on an array-type
map with `max_entries = 64`: writes the slot at `key` and succeeds when
`key` is in range, fails (-E2BIG) otherwise.  On failure no map state is
produced; the caller keeps the old map. -/
def bpf_map_update_elem (m : XskMap) (key value : Nat) : Except Unit XskMap :=
  if key < maxEntries then
    Except.ok (fun k => if k = key then some value else m k)
  else
    Except.error ()

/-- Kernel (control-plane) helper `bpf_map_delete_elem` on an XSKMAP:
clears the slot at `key` when in range, fails otherwise. -/
def bpf_map_delete_elem (m : XskMap) (key : Nat) : Except Unit XskMap :=
  if key < maxEntries then
    Except.ok (fun k => if k = key then none else m k)
  else
    Except.error ()

/-- The registry state after a control-plane update attempt: the new map
when the update succeeded, the unchanged old map when it failed. -/
def mapAfterUpdate (m : XskMap) (key value : Nat) : XskMap :=
  match bpf_map_update_elem m key value with
  | Except.ok m2 => m2
  | Except.error _ => m

/-- XDP program result codes.  `XDP_REDIRECT` additionally records the map
index handed to `bpf_redirect_map`, which the kernel uses at dispatch time
to resolve the target socket. -/
inductive XdpResult : Type where
  | XDP_ABORTED : XdpResult
  | XDP_DROP : XdpResult
  | XDP_PASS : XdpResult
  | XDP_TX : XdpResult
  | XDP_REDIRECT : Nat → XdpResult
deriving DecidableEq, Repr

/-- Kernel helper `bpf_redirect_map m key flags`: when the map holds an
entry at `key`, returns `XDP_REDIRECT` with that key recorded as the
dispatch target; otherwise returns the fallback action encoded in the low
bits of `flags` (`0` encodes `XDP_ABORTED`). -/
def bpf_redirect_map (m : XskMap) (key flags : Nat) : XdpResult :=
  match bpf_map_lookup_elem m key with
  | some _ => XdpResult.XDP_REDIRECT key
  | none =>
    match flags % 4 with
    | 0 => XdpResult.XDP_ABORTED
    | 1 => XdpResult.XDP_DROP
    | 2 => XdpResult.XDP_PASS
    | _ => XdpResult.XDP_TX

/-- The XDP metadata context `struct xdp_md` (all fields `__u32`).  The
program reads only `rx_queue_index`. -/
structure xdp_md : Type where
  data : Nat
  data_end : Nat
  data_meta : Nat
  ingress_ifindex : Nat
  rx_queue_index : Nat
  egress_ifindex : Nat
deriving DecidableEq, Repr

/-- The body of `xsk_redir_prog` from `src/ebpf/afxdp.c`:

    __u32 index = ctx->rx_queue_index;
    if (bpf_map_lookup_elem(&xsks_map, &index))
        return bpf_redirect_map(&xsks_map, index, 0);
    return XDP_PASS;
-/
def xsk_redir_prog (m : XskMap) (ctx : xdp_md) : XdpResult :=
  let index := ctx.rx_queue_index
  match bpf_map_lookup_elem m index with
  | some _ => bpf_redirect_map m index 0
  | none => XdpResult.XDP_PASS

/-- The same program body with the map state threaded explicitly: each
helper the program calls (`bpf_map_lookup_elem`, `bpf_redirect_map`) is a
read-only helper, so the body returns the result together with the map
state it leaves behind. -/
def xsk_redir_prog_exec (m : XskMap) (ctx : xdp_md) : XdpResult × XskMap :=
  let index := ctx.rx_queue_index
  match bpf_map_lookup_elem m index with
  | some _ => (bpf_redirect_map m index 0, m)
  | none => (XdpResult.XDP_PASS, m)

/-- The same program body instrumented with a helper-call counter: each
BPF helper invocation (`bpf_map_lookup_elem`, and `bpf_redirect_map`,
which internally consults the map once) costs one operation. -/
def xsk_redir_prog_cost (m : XskMap) (ctx : xdp_md) : XdpResult × Nat :=
  let index := ctx.rx_queue_index
  match bpf_map_lookup_elem m index with
  | some _ => (bpf_redirect_map m index 0, 1 + 1)
  | none => (XdpResult.XDP_PASS, 1)

/-- The socket an `XDP_REDIRECT` result resolves to at dispatch time: the
kernel consults the same `xsks_map` at the recorded index. -/
def resolveRedirect (m : XskMap) : XdpResult → Option Nat
  | XdpResult.XDP_REDIRECT t => bpf_map_lookup_elem m t
  | _ => none

/-- The empty registry: no queue is bound. -/
def emptyMap : XskMap := fun _ => none

/-- Registry binding queue 3 to socket 7 (spec Scenario A). -/
def mapQ3S7 : XskMap := fun k => if k = 3 then some 7 else none

/-- Registry binding queue 3 to socket 11: same bound keys as `mapQ3S7`,
different socket value. -/
def mapQ3S11 : XskMap := fun k => if k = 3 then some 11 else none

/-- A registry whose 64 slots are all occupied (socket `j` in slot `j`). -/
def fullMap : XskMap := fun k => some k

/-- First registry of spec Scenario D: queue 2 bound to socket 9. -/
def mapD1 : XskMap := fun k => if k = 2 then some 9 else emptyMap k

/-- Second registry of spec Scenario D: queue 2 rebound to socket 11. -/
def mapD2 : XskMap := fun k => if k = 2 then some 11 else mapD1 k

/-- C1: if the registry holds an entry bound to socket `s` at the queue
index the frame arrived on, the program returns `XDP_REDIRECT` targeted at
exactly that queue index, and the redirect resolves (through the same map)
to socket `s`. -/
theorem xsk_redir_prog_redirects_bound_queue (m : XskMap) (ctx : xdp_md) (s : Nat)
    (h : bpf_map_lookup_elem m ctx.rx_queue_index = some s) :
    xsk_redir_prog m ctx = XdpResult.XDP_REDIRECT ctx.rx_queue_index ∧
    resolveRedirect m (xsk_redir_prog m ctx) = some s := by
  have hprog : xsk_redir_prog m ctx = XdpResult.XDP_REDIRECT ctx.rx_queue_index := by
    unfold xsk_redir_prog bpf_redirect_map
    simp [h]
  refine ⟨hprog, ?_⟩
  rw [hprog]
  unfold resolveRedirect
  exact h

/-- Witness for C1 at spec Scenario A: queue 3 bound to socket 7, frame on
queue 3. -/
theorem xsk_redir_prog_redirects_bound_queue_witness :
    bpf_map_lookup_elem mapQ3S7 (xdp_md.mk 0 0 0 0 3 0).rx_queue_index = some 7 ∧
    (xsk_redir_prog mapQ3S7 (xdp_md.mk 0 0 0 0 3 0) = XdpResult.XDP_REDIRECT 3 ∧
     resolveRedirect mapQ3S7 (xsk_redir_prog mapQ3S7 (xdp_md.mk 0 0 0 0 3 0)) = some 7) :=
  ⟨rfl, xsk_redir_prog_redirects_bound_queue mapQ3S7 (xdp_md.mk 0 0 0 0 3 0) 7 rfl⟩

/-- C2: if the registry holds no entry at the queue index the frame
arrived on, the program returns `XDP_PASS`; the miss is not an error. -/
theorem xsk_redir_prog_pass_on_miss (m : XskMap) (ctx : xdp_md)
    (h : bpf_map_lookup_elem m ctx.rx_queue_index = none) :
    xsk_redir_prog m ctx = XdpResult.XDP_PASS := by
  unfold xsk_redir_prog
  simp [h]

/-- Witness for C2 at spec Scenario B: no binding for queue 5. -/
theorem xsk_redir_prog_pass_on_miss_witness :
    bpf_map_lookup_elem emptyMap (xdp_md.mk 0 0 0 0 5 0).rx_queue_index = none ∧
    xsk_redir_prog emptyMap (xdp_md.mk 0 0 0 0 5 0) = XdpResult.XDP_PASS :=
  ⟨rfl, xsk_redir_prog_pass_on_miss emptyMap (xdp_md.mk 0 0 0 0 5 0) rfl⟩

/-- C3: on every registry state and every context, the program produces
one of exactly two outcomes: `XDP_PASS` or an `XDP_REDIRECT`; no drop,
abort, or other disposition is reachable. -/
theorem xsk_redir_prog_two_outcomes (m : XskMap) (ctx : xdp_md) :
    xsk_redir_prog m ctx = XdpResult.XDP_PASS ∨
    ∃ t, xsk_redir_prog m ctx = XdpResult.XDP_REDIRECT t := by
  unfold xsk_redir_prog bpf_redirect_map
  cases h : bpf_map_lookup_elem m ctx.rx_queue_index with
  | none => exact Or.inl (by simp [h])
  | some v => exact Or.inr ⟨ctx.rx_queue_index, by simp [h]⟩

/-- C5: the decision is a pure function of the pair (queue index, registry
snapshot): two delivery contexts that agree on `rx_queue_index` yield the
same result on any fixed registry, whatever their other fields hold. -/
theorem xsk_redir_prog_deterministic (m : XskMap) (c1 c2 : xdp_md)
    (h : c1.rx_queue_index = c2.rx_queue_index) :
    xsk_redir_prog m c1 = xsk_redir_prog m c2 := by
  unfold xsk_redir_prog
  rw [h]

/-- Witness for C5: two contexts agreeing only on the queue index. -/
theorem xsk_redir_prog_deterministic_witness :
    (xdp_md.mk 1 2 3 4 9 6).rx_queue_index = (xdp_md.mk 10 20 30 40 9 60).rx_queue_index ∧
    xsk_redir_prog fullMap (xdp_md.mk 1 2 3 4 9 6) =
      xsk_redir_prog fullMap (xdp_md.mk 10 20 30 40 9 60) :=
  ⟨rfl, xsk_redir_prog_deterministic fullMap (xdp_md.mk 1 2 3 4 9 6) (xdp_md.mk 10 20 30 40 9 60) rfl⟩

/-- C6: a frame arriving on a queue index at or beyond `max_entries = 64`
necessarily misses the array-type map, so the program returns `XDP_PASS`,
whatever the registry holds. -/
theorem xsk_redir_prog_pass_out_of_range (m : XskMap) (ctx : xdp_md)
    (h : maxEntries ≤ ctx.rx_queue_index) :
    xsk_redir_prog m ctx = XdpResult.XDP_PASS := by
  have hl : bpf_map_lookup_elem m ctx.rx_queue_index = none := by
    unfold bpf_map_lookup_elem
    simp [Nat.not_lt.mpr h]
  unfold xsk_redir_prog
  simp [hl]

/-- Witness for C6: a fully occupied registry still passes queue 100. -/
theorem xsk_redir_prog_pass_out_of_range_witness :
    maxEntries ≤ (xdp_md.mk 0 0 0 0 100 0).rx_queue_index ∧
    xsk_redir_prog fullMap (xdp_md.mk 0 0 0 0 100 0) = XdpResult.XDP_PASS :=
  ⟨by decide, xsk_redir_prog_pass_out_of_range fullMap (xdp_md.mk 0 0 0 0 100 0) (by decide)⟩

/-- C7: the outcome depends only on which queue indices are bound, not on
the socket identifiers stored: two registries binding the same key set
give the same result on every context. -/
theorem xsk_redir_prog_socket_value_irrelevant (m1 m2 : XskMap)
    (h : ∀ k, (bpf_map_lookup_elem m1 k).isSome = (bpf_map_lookup_elem m2 k).isSome)
    (ctx : xdp_md) :
    xsk_redir_prog m1 ctx = xsk_redir_prog m2 ctx := by
  have hq := h ctx.rx_queue_index
  unfold xsk_redir_prog bpf_redirect_map
  cases h1 : bpf_map_lookup_elem m1 ctx.rx_queue_index with
  | none =>
    cases h2 : bpf_map_lookup_elem m2 ctx.rx_queue_index with
    | none => simp [h1, h2]
    | some w => rw [h1, h2] at hq; simp at hq
  | some v =>
    cases h2 : bpf_map_lookup_elem m2 ctx.rx_queue_index with
    | none => rw [h1, h2] at hq; simp at hq
    | some w => simp [h1, h2]

/-- Witness for C7: queue 3 bound to socket 7 versus socket 11; frame on
queue 3 gets the same outcome. -/
theorem xsk_redir_prog_socket_value_irrelevant_witness :
    (∀ k, (bpf_map_lookup_elem mapQ3S7 k).isSome = (bpf_map_lookup_elem mapQ3S11 k).isSome) ∧
    xsk_redir_prog mapQ3S7 (xdp_md.mk 0 0 0 0 3 0) =
      xsk_redir_prog mapQ3S11 (xdp_md.mk 0 0 0 0 3 0) := by
  have h : ∀ k, (bpf_map_lookup_elem mapQ3S7 k).isSome = (bpf_map_lookup_elem mapQ3S11 k).isSome := by
    intro k
    by_cases hk : k = 3
    · subst hk; rfl
    · simp [bpf_map_lookup_elem, mapQ3S7, mapQ3S11, hk]
  exact ⟨h, xsk_redir_prog_socket_value_irrelevant mapQ3S7 mapQ3S11 h (xdp_md.mk 0 0 0 0 3 0)⟩

/-- C4: no more than 64 queue indices can ever be bound at once, and once
64 distinct indices are bound, a control-plane attempt to register a 65th
distinct index fails explicitly (`bpf_map_update_elem` errors) and leaves
every registry entry exactly as it was. -/
theorem xsks_map_capacity_bound (m : XskMap) (S : Finset Nat) (k v : Nat)
    (hS : ∀ j ∈ S, (bpf_map_lookup_elem m j).isSome = true)
    (hcard : S.card = maxEntries) (hk : k ∉ S) :
    S.card ≤ maxEntries ∧
    bpf_map_update_elem m k v = Except.error () ∧
    ∀ j, bpf_map_lookup_elem (mapAfterUpdate m k v) j = bpf_map_lookup_elem m j := by
  have hsub : S ⊆ Finset.range maxEntries := by
    intro j hj
    have hjs := hS j hj
    unfold bpf_map_lookup_elem at hjs
    by_cases hjlt : j < maxEntries
    · exact Finset.mem_range.mpr hjlt
    · simp [hjlt] at hjs
  have hSeq : S = Finset.range maxEntries :=
    Finset.eq_of_subset_of_card_le hsub (by simp [hcard])
  have hk64 : ¬ k < maxEntries := fun hlt => hk (hSeq ▸ Finset.mem_range.mpr hlt)
  have herr : bpf_map_update_elem m k v = Except.error () := by
    unfold bpf_map_update_elem
    simp [hk64]
  refine ⟨le_of_eq hcard, herr, fun j => ?_⟩
  unfold mapAfterUpdate
  rw [herr]

/-- Witness for C4 at spec Scenario C: all 64 slots occupied; registering
queue 64 is rejected and the registry is untouched. -/
theorem xsks_map_capacity_bound_witness :
    ((∀ j ∈ Finset.range 64, (bpf_map_lookup_elem fullMap j).isSome = true) ∧
     (Finset.range 64).card = maxEntries ∧ (64 : Nat) ∉ Finset.range 64) ∧
    ((Finset.range 64).card ≤ maxEntries ∧
     bpf_map_update_elem fullMap 64 5 = Except.error () ∧
     ∀ j, bpf_map_lookup_elem (mapAfterUpdate fullMap 64 5) j = bpf_map_lookup_elem fullMap j) :=
  ⟨⟨by decide, by decide, by decide⟩,
   xsks_map_capacity_bound fullMap (Finset.range 64) 64 5 (by decide) (by decide) (by decide)⟩

/-- C8: re-registration is last-write-wins: after successfully binding
queue `q` to `s1` and then to `s2`, the entry at `q` is exactly `s2`, and
every other queue index is untouched, so `q` has exactly one entry. -/
theorem xsks_map_last_write_wins (m m1 m2 : XskMap) (q s1 s2 : Nat)
    (h1 : bpf_map_update_elem m q s1 = Except.ok m1)
    (h2 : bpf_map_update_elem m1 q s2 = Except.ok m2) :
    bpf_map_lookup_elem m2 q = some s2 ∧
    ∀ j, j ≠ q → bpf_map_lookup_elem m2 j = bpf_map_lookup_elem m j := by
  unfold bpf_map_update_elem at h1 h2
  by_cases hq : q < maxEntries
  · simp only [if_pos hq, Except.ok.injEq] at h1 h2
    constructor
    · unfold bpf_map_lookup_elem
      rw [if_pos hq, ← h2]
      simp
    · intro j hj
      unfold bpf_map_lookup_elem
      by_cases hjlt : j < maxEntries
      · rw [if_pos hjlt, if_pos hjlt, ← h2, ← h1]
        simp [hj]
      · rw [if_neg hjlt, if_neg hjlt]
  · rw [if_neg hq] at h1
    exact absurd h1 (by simp)

/-- Witness for C8 at spec Scenario D: queue 2 bound to socket 9 then
rebound to socket 11; the entry is 11 and all other queues unchanged. -/
theorem xsks_map_last_write_wins_witness :
    bpf_map_lookup_elem mapD2 2 = some 11 ∧
    ∀ j, j ≠ 2 → bpf_map_lookup_elem mapD2 j = bpf_map_lookup_elem emptyMap j :=
  xsks_map_last_write_wins emptyMap mapD1 mapD2 2 9 11 rfl rfl

/-- C9: every invocation leaves the registry unchanged: the state-threaded
program body returns the input map, and its result is the decision
function's result — the decision logic never creates, updates, or deletes
entries. -/
theorem xsk_redir_prog_preserves_map (m : XskMap) (ctx : xdp_md) :
    (xsk_redir_prog_exec m ctx).2 = m ∧
    (xsk_redir_prog_exec m ctx).1 = xsk_redir_prog m ctx := by
  unfold xsk_redir_prog_exec xsk_redir_prog
  cases h : bpf_map_lookup_elem m ctx.rx_queue_index <;> simp [h]

/-- C10: the program is total and completes within a fixed bound of two
BPF helper invocations (the guard lookup, plus the redirect helper's own
map consultation) on every input; the cost-instrumented body computes the
same decision. -/
theorem xsk_redir_prog_bounded_ops (m : XskMap) (ctx : xdp_md) :
    (xsk_redir_prog_cost m ctx).1 = xsk_redir_prog m ctx ∧
    (xsk_redir_prog_cost m ctx).2 ≤ 2 := by
  unfold xsk_redir_prog_cost xsk_redir_prog
  cases h : bpf_map_lookup_elem m ctx.rx_queue_index <;> simp [h]
